import Mathlib

set_option maxHeartbeats 1000000

/-!
Shallow embedding of src/main.py (the registration pipeline of the
Python-Connectivity repository) and verification of its specification.

The source is a FastAPI endpoint POST /register/ that validates a
UserCreate body (username, email, password), checks for a duplicate
email in the users table, hashes the password, inserts a new row and
returns it as a UserResponse.  The SQLite users table declares three
columns with uniqueness: id (primary key), username and email.

The database is modelled as a list of rows; the SQLAlchemy session,
commit and unique-constraint behaviour are modelled by explicit state
passing: a commit that would violate a unique column raises an
IntegrityError, which the handler does not catch, so it surfaces as an
unhandled server error and no row is persisted.  The bcrypt hash
(passlib) is an external collaborator and is modelled as an arbitrary
function parameter, since none of its properties are relied upon.
-/

/-- A persisted row of the users table, mirroring class User in
src/main.py (columns id, username, email, hashed_password). -/
structure UserRow where
  id : Nat
  username : String
  email : String
  hashed_password : String
deriving Repr, DecidableEq

/-- A column of a table together with whether the schema declares it
unique (primary keys are unique). -/
structure ColumnSpec where
  name : String
  isUnique : Bool
deriving Repr, DecidableEq

/-- The schema of the users table as written in src/main.py lines 30-35:
id is primary_key, username and email carry unique=True, and
hashed_password carries no uniqueness. -/
def usersTableColumns : List ColumnSpec :=
  [⟨"id", true⟩, ⟨"username", true⟩, ⟨"email", true⟩, ⟨"hashed_password", false⟩]

/-- The non-primary-key columns the database enforces uniqueness on
(username and email, both declared unique=True in class User). -/
def dbUniqueFields : List String := ["username", "email"]

/-- The field the duplicate pre-check of register_user_pipeline inspects:
the query filters on User.email only (src/main.py line 87). -/
def duplicateCheckFields : List String := ["email"]

/-- The request body contract (class UserCreate): username, email and
password; no id and none of the fields of the file-upload variant. -/
structure UserCreate where
  username : String
  email : String
  password : String
deriving Repr, DecidableEq

/-- The field names of the UserCreate contract. -/
def userCreateFields : List String := ["username", "email", "password"]

/-- The success-response contract (class UserResponse): id, username and
email only; the password and its hash are not part of it. -/
structure UserResponse where
  id : Nat
  username : String
  email : String
deriving Repr, DecidableEq

/-- The field names of the UserResponse contract. -/
def userResponseFields : List String := ["id", "username", "email"]

/-- A raw inbound request body before contract validation: each field
may be absent. -/
structure RawInput where
  username : Option String
  email : Option String
  password : Option String
deriving Repr, DecidableEq

/-- Modelled from the spec: pydantic EmailStr validation (the validator
library is an external collaborator, absent from src); the spec says the
email is validated as a well-formed address, modelled as exactly one @
separating a nonempty local part from a nonempty domain part. -/
def isValidEmail (e : String) : Bool :=
  match e.data.dropWhile (fun c => c != '@') with
  | '@' :: rest =>
      !(e.data.takeWhile (fun c => c != '@')).isEmpty &&
      !rest.isEmpty && rest.all (fun c => c != '@')
  | _ => false

/-- Contract validation performed by the framework before the handler
body runs: every field must be present and the email well-formed. -/
def parseUserCreate (r : RawInput) : Option UserCreate :=
  match r.username, r.email, r.password with
  | some u, some e, some p =>
      if isValidEmail e then some ⟨u, e, p⟩ else none
  | _, _, _ => none

/-- The outcome of one request, as seen by the caller. -/
inductive Response where
  /-- The handler returned the new record; the route decorator sets
  status 201. -/
  | created (body : UserResponse)
  /-- The handler raised HTTPException with this status and detail. -/
  | httpError (status : Nat) (detail : String)
  /-- The framework rejected the body before the handler ran. -/
  | validationError
  /-- An exception the handler does not catch (an IntegrityError from
  commit) escaped the handler. -/
  | serverError
deriving Repr, DecidableEq

/-- Modelled from the spec: the HTTP status of each outcome.  The route
decorator in src sets 201 on success and HTTPException carries its own
status; the statuses of a framework-level validation rejection and of an
escaped exception are framework behaviour absent from src, taken from
the spec as bad-request 400 and internal-error 500. -/
def statusOf : Response → Nat
  | .created _ => 201
  | .httpError s _ => s
  | .validationError => 400
  | .serverError => 500

/-- Whether the outcome is the successful creation of a record. -/
def Response.isCreated : Response → Bool
  | .created _ => true
  | _ => false

/-- db.query(User).filter(User.email == e).first() of src/main.py
line 87: the first persisted row with the given email, if any. -/
def findByEmail (db : List UserRow) (e : String) : Option UserRow :=
  db.find? (fun r => r.email == e)

/-- The duplicate pre-check decision of the handler: whether the query
on the email finds an existing user. -/
def duplicatePrecheck (db : List UserRow) (user_data : UserCreate) : Bool :=
  (findByEmail db user_data.email).isSome

/-- The id the database assigns to a newly committed row (SQLite integer
primary key autoincrement behaviour: one more than the largest id). -/
def nextId (db : List UserRow) : Nat :=
  (db.map (fun r => r.id)).foldr max 0 + 1

/-- Whether committing the row would violate a unique column of the
users table: some persisted row already has the same username or the
same email (the two unique=True columns of class User). -/
def violatesUnique (db : List UserRow) (r : UserRow) : Bool :=
  db.any (fun q => q.username == r.username || q.email == r.email)

/-- The handler register_user_pipeline of src/main.py lines 79-112,
given the hashing function, the session state and a validated body.
Step 1 checks for a duplicate email and raises HTTPException 400.
Step 2 hashes the password.  Step 3 builds the row.  The final step
adds and commits: a commit violating a unique column raises an
IntegrityError that the handler does not catch (serverError) and
persists nothing; otherwise the row is stored, refresh fills in the
database-assigned id, and the row is returned (serialised through
UserResponse by the response_model). -/
def register_user_pipeline (hash : String → String) (db : List UserRow)
    (user_data : UserCreate) : Response × List UserRow :=
  match findByEmail db user_data.email with
  | some _ =>
      (.httpError 400 "Email already registered.", db)
  | none =>
      let hashed_password := hash user_data.password
      let new_user_record : UserRow :=
        ⟨nextId db, user_data.username, user_data.email, hashed_password⟩
      if violatesUnique db new_user_record then
        (.serverError, db)
      else
        (.created ⟨new_user_record.id, new_user_record.username, new_user_record.email⟩,
          db ++ [new_user_record])

/-- The shared mutable state a request can touch: the users table and
the local filesystem.  This variant of the program contains no
filesystem operation at all, so the files component is never written. -/
structure AppState where
  db : List UserRow
  files : List String
deriving Repr, DecidableEq

/-- One full request round trip: the framework validates the body
against UserCreate (rejecting invalid bodies before the handler and
before any side effect), then runs the handler. -/
def handleRequest (hash : String → String) (s : AppState) (r : RawInput) :
    Response × AppState :=
  match parseUserCreate r with
  | none => (.validationError, s)
  | some user_data =>
      let out := register_user_pipeline hash s.db user_data
      (out.1, ⟨out.2, s.files⟩)

/-- The states reachable from the empty table by any sequence of
requests, with any hashing function and any raw bodies. -/
inductive ReachableState : AppState → Prop where
  | init : ReachableState ⟨[], []⟩
  | step (hash : String → String) (r : RawInput) {s : AppState} :
      ReachableState s → ReachableState (handleRequest hash s r).2

/-- The uniqueness invariant the users table schema enforces: no two
rows share a username and no two share an email. -/
def UniqueInv (db : List UserRow) : Prop :=
  db.Pairwise (fun a b => a.username ≠ b.username ∧ a.email ≠ b.email)

/-- Modelled from the spec: the extension of a filename, for the
file-upload variant the spec documents, whose source is absent from
src.  Returns the part of the character list from its last dot on, or
none when no dot occurs (the behaviour of os.path.splitext). -/
def extAux : List Char → Option (List Char)
  | [] => none
  | c :: cs =>
      match extAux cs with
      | some e => some e
      | none => if c = '.' then some ('.' :: cs) else none

/-- Modelled from the spec: the extension of a filename as a string,
empty when the name has no dot. -/
def fileExtension (s : String) : String :=
  String.mk ((extAux s.data).getD [])

/-- Modelled from the spec: the stored filename of an accepted upload,
a freshly generated unique token concatenated with the extension of the
original attachment name (spec section 4.1 step 4). -/
def storedFilename (token : String) (originalName : String) : String :=
  token ++ fileExtension originalName

/-! Helper lemmas about the embedding. -/

theorem extAux_append_of_some {ys e : List Char} (h : extAux ys = some e)
    (xs : List Char) : extAux (xs ++ ys) = some e := by
  induction xs with
  | nil => simpa using h
  | cons c cs ih => simp [extAux, ih]

theorem extAux_eq_none_of_no_dot {xs : List Char}
    (h : ∀ c ∈ xs, c ≠ '.') : extAux xs = none := by
  induction xs with
  | nil => rfl
  | cons c cs ih =>
      have hc : c ≠ '.' := h c (by simp)
      have hcs : extAux cs = none := ih (fun d hd => h d (by simp [hd]))
      simp [extAux, hcs, hc]

theorem extAux_some_shape {xs e : List Char} (h : extAux xs = some e) :
    ∃ rest, e = '.' :: rest ∧ extAux rest = none := by
  induction xs with
  | nil => simp [extAux] at h
  | cons c cs ih =>
      cases hcs : extAux cs with
      | some e2 =>
          simp only [extAux, hcs, Option.some.injEq] at h
          subst h
          exact ih hcs
      | none =>
          simp only [extAux, hcs] at h
          by_cases hc : c = '.'
          · rw [if_pos hc] at h
            simp only [Option.some.injEq] at h
            exact ⟨cs, h.symm, hcs⟩
          · rw [if_neg hc] at h
            exact absurd h (by simp)

theorem violatesUnique_eq_false_iff {db : List UserRow} {r : UserRow} :
    violatesUnique db r = false ↔
      ∀ q ∈ db, q.username ≠ r.username ∧ q.email ≠ r.email := by
  simp [violatesUnique, not_or]

theorem uniqueInv_append {db : List UserRow} {r : UserRow} (h : UniqueInv db)
    (hv : violatesUnique db r = false) : UniqueInv (db ++ [r]) := by
  rw [UniqueInv, List.pairwise_append]
  refine ⟨h, by simp, ?_⟩
  intro a ha b hb
  rw [List.mem_singleton] at hb
  subst hb
  exact (violatesUnique_eq_false_iff.mp hv) a ha

theorem register_preserves_uniqueInv (hash : String → String)
    (db : List UserRow) (u : UserCreate) (h : UniqueInv db) :
    UniqueInv (register_user_pipeline hash db u).2 := by
  simp only [register_user_pipeline]
  split
  · exact h
  · split
    · exact h
    · next hv => exact uniqueInv_append h (by simpa using hv)

theorem reachable_uniqueInv {s : AppState} (h : ReachableState s) :
    UniqueInv s.db := by
  induction h with
  | init => simp [UniqueInv]
  | step hash r hs ih =>
      simp only [handleRequest]
      split
      · exact ih
      · exact register_preserves_uniqueInv hash _ _ ih

theorem handleRequest_files (hash : String → String) (s : AppState)
    (r : RawInput) : ((handleRequest hash s r).2).files = s.files := by
  simp only [handleRequest]
  split <;> rfl

theorem register_not_created_db (hash : String → String) (db : List UserRow)
    (u : UserCreate)
    (h : (register_user_pipeline hash db u).1.isCreated = false) :
    (register_user_pipeline hash db u).2 = db := by
  revert h
  simp only [register_user_pipeline]
  split
  · intro _; rfl
  · split
    · intro _; rfl
    · intro h; simp [Response.isCreated] at h

theorem handleRequest_parse_none {hash : String → String} {s : AppState}
    {r : RawInput} (hp : parseUserCreate r = none) :
    handleRequest hash s r = (.validationError, s) := by
  simp [handleRequest, hp]

theorem handleRequest_parse_some {hash : String → String} {s : AppState}
    {r : RawInput} {u : UserCreate} (hp : parseUserCreate r = some u) :
    handleRequest hash s r =
      ((register_user_pipeline hash s.db u).1,
        ⟨(register_user_pipeline hash s.db u).2, s.files⟩) := by
  simp [handleRequest, hp]

theorem register_eq_split (hash : String → String) (db : List UserRow)
    (u : UserCreate) :
    register_user_pipeline hash db u =
      if duplicatePrecheck db u then
        (.httpError 400 "Email already registered.", db)
      else if violatesUnique db ⟨nextId db, u.username, u.email, hash u.password⟩ then
        (.serverError, db)
      else
        (.created ⟨nextId db, u.username, u.email⟩,
          db ++ [⟨nextId db, u.username, u.email, hash u.password⟩]) := by
  simp only [register_user_pipeline, duplicatePrecheck]
  split
  · next w hf => simp [hf]
  · next hf => simp [hf]

theorem violatesUnique_congr {db : List UserRow} {r1 r2 : UserRow}
    (hu : r1.username = r2.username) (he : r1.email = r2.email) :
    violatesUnique db r1 = violatesUnique db r2 := by
  simp [violatesUnique, hu, he]

theorem duplicatePrecheck_of_mem {db : List UserRow} {u : UserCreate}
    {w : UserRow} (hw : w ∈ db) (he : w.email = u.email) :
    duplicatePrecheck db u = true := by
  rw [duplicatePrecheck, findByEmail, Option.isSome_iff_exists]
  have : ∃ x ∈ db, (fun r => r.email == u.email) x :=
    ⟨w, hw, by simp [he]⟩
  rw [← List.find?_isSome] at this
  exact Option.isSome_iff_exists.mp this

theorem duplicatePrecheck_eq_false_iff {db : List UserRow} {u : UserCreate} :
    duplicatePrecheck db u = false ↔ ∀ w ∈ db, w.email ≠ u.email := by
  rw [duplicatePrecheck, findByEmail]
  simp [Option.not_isSome_iff_eq_none, List.find?_eq_none]

theorem fileExtension_storedFilename (token n : String)
    (h : ∀ c ∈ token.data, c ≠ '.') :
    fileExtension (storedFilename token n) = fileExtension n := by
  unfold storedFilename fileExtension
  cases hn : extAux n.data with
  | none =>
      have ht : extAux token.data = none := extAux_eq_none_of_no_dot h
      simp only [Option.getD_none, String.data_append]
      have h2 : extAux (token.data ++ (String.mk []).data) = none := by
        simpa using ht
      rw [h2]
      rfl
  | some e =>
      obtain ⟨rest, rfl, hrest⟩ := extAux_some_shape hn
      have h1 : extAux ('.' :: rest) = some ('.' :: rest) := by
        simp [extAux, hrest]
      simp only [Option.getD_some, String.data_append]
      rw [extAux_append_of_some h1 token.data]
      rfl

theorem storedFilename_ne_of_token_ne {t1 t2 : String} (n : String)
    (h : t1 ≠ t2) : storedFilename t1 n ≠ storedFilename t2 n := by
  intro he
  apply h
  apply String.ext
  have hd := congrArg String.data he
  simp only [storedFilename, String.data_append] at hd
  exact List.append_cancel_right hd

/-! Claim theorems. -/

/-- C1 counterexample: the claim requires the users table to make
student_id and transaction_id globally unique, but the table defined in
src/main.py has no student_id and no transaction_id column at all. -/
theorem C1_counterexample :
    usersTableColumns.any (fun c => c.name == "student_id") = false ∧
    usersTableColumns.any (fun c => c.name == "transaction_id") = false := by
  decide

/-- C1 (amended): in every reachable state of the persistence layer, no
two persisted rows share an email and no two share a username; the
users table has columns id, username, email and hashed_password only,
so no student_id or transaction_id uniqueness exists. -/
theorem C1_uniqueness_invariant {s : AppState} (h : ReachableState s) :
    UniqueInv s.db ∧
    usersTableColumns.map (fun c => c.name) =
      ["id", "username", "email", "hashed_password"] :=
  ⟨reachable_uniqueInv h, by decide⟩

/-- C1 witness: the invariant holds at a concretely reached state. -/
theorem C1_uniqueness_invariant_witness :
    UniqueInv [⟨1, "alice", "a@x.com", "pw"⟩] ∧
    usersTableColumns.map (fun c => c.name) =
      ["id", "username", "email", "hashed_password"] := by
  have h1 := ReachableState.step (fun s => s)
    ⟨some "alice", some "a@x.com", some "pw"⟩ ReachableState.init
  have h2 : (handleRequest (fun s => s) ⟨[], []⟩
      ⟨some "alice", some "a@x.com", some "pw"⟩).2 =
      ⟨[⟨1, "alice", "a@x.com", "pw"⟩], []⟩ := by decide
  rw [h2] at h1
  exact C1_uniqueness_invariant h1

/-- C2 counterexample: on a concrete duplicate submission the handler
fails with status 400, not a 409 conflict, and the request contract has
no student_id or transaction_id field the pre-check could match on. -/
theorem C2_counterexample :
    statusOf (register_user_pipeline (fun s => s)
      [⟨1, "alice", "a@x.com", "h1"⟩] ⟨"bob", "a@x.com", "p"⟩).1 = 400 ∧
    (400 : Nat) ≠ 409 ∧
    userCreateFields.contains "student_id" = false ∧
    userCreateFields.contains "transaction_id" = false := by
  decide

/-- C2 (amended): the duplicate pre-check queries the persistence layer
only for an existing row with email = input.email; whenever such a row
exists the handler raises HTTPException 400 "Email already registered."
and performs no side effect, the table being returned unchanged. -/
theorem C2_precheck_behaviour (hash : String → String) (db : List UserRow)
    (u : UserCreate) (h : duplicatePrecheck db u = true) :
    register_user_pipeline hash db u =
      (.httpError 400 "Email already registered.", db) := by
  rw [register_eq_split, if_pos h]

/-- C2 witness: the amended behaviour at a concrete duplicate. -/
theorem C2_precheck_behaviour_witness :
    duplicatePrecheck [⟨1, "alice", "a@x.com", "h1"⟩] ⟨"bob", "a@x.com", "p"⟩ = true ∧
    register_user_pipeline (fun s => s) [⟨1, "alice", "a@x.com", "h1"⟩]
        ⟨"bob", "a@x.com", "p"⟩ =
      (.httpError 400 "Email already registered.", [⟨1, "alice", "a@x.com", "h1"⟩]) :=
  ⟨by decide, C2_precheck_behaviour (fun s => s) _ _ (by decide)⟩

/-- C3 counterexample: a concrete submission duplicating a persisted
email is answered with HTTP 400, not the 409 the claim requires. -/
theorem C3_counterexample :
    (register_user_pipeline (fun s => s) [⟨1, "carol", "c@y.org", "h2"⟩]
      ⟨"dan", "c@y.org", "p2"⟩).1 = .httpError 400 "Email already registered." ∧
    statusOf (register_user_pipeline (fun s => s) [⟨1, "carol", "c@y.org", "h2"⟩]
      ⟨"dan", "c@y.org", "p2"⟩).1 ≠ 409 := by
  decide

/-- C3 (amended): every submission whose email duplicates a persisted
row is answered with HTTP 400 and the human-readable detail "Email
already registered." naming the email field (student_id and
transaction_id do not exist in this program, and a duplicate username
is not answered this way). -/
theorem C3_duplicate_email_response (hash : String → String)
    (db : List UserRow) (u : UserCreate) (w : UserRow) (hw : w ∈ db)
    (he : w.email = u.email) :
    (register_user_pipeline hash db u).1 =
      .httpError 400 "Email already registered." ∧
    statusOf (register_user_pipeline hash db u).1 = 400 := by
  have hp : duplicatePrecheck db u = true := duplicatePrecheck_of_mem hw he
  rw [register_eq_split, if_pos hp]
  exact ⟨rfl, rfl⟩

/-- C3 witness: the amended response at a concrete duplicate. -/
theorem C3_duplicate_email_response_witness :
    (⟨1, "carol", "c@y.org", "h2"⟩ : UserRow) ∈
        [(⟨1, "carol", "c@y.org", "h2"⟩ : UserRow)] ∧
    (register_user_pipeline (fun s => s) [⟨1, "carol", "c@y.org", "h2"⟩]
        ⟨"dan", "c@y.org", "p2"⟩).1 =
      .httpError 400 "Email already registered." ∧
    statusOf (register_user_pipeline (fun s => s) [⟨1, "carol", "c@y.org", "h2"⟩]
      ⟨"dan", "c@y.org", "p2"⟩).1 = 400 :=
  ⟨by decide, C3_duplicate_email_response (fun s => s) _ _
    ⟨1, "carol", "c@y.org", "h2"⟩ (by decide) (by decide)⟩

/-- C4 counterexample: a concrete submission whose username duplicates a
persisted row passes the email-only pre-check, and the constraint
violation at commit escapes as an unhandled server error of status 500
instead of being rolled back into a conflict response; moreover the
pre-check and the database constraints protect different field sets. -/
theorem C4_counterexample :
    register_user_pipeline (fun s => s) [⟨1, "erin", "e@z.io", "h3"⟩]
        ⟨"erin", "f@z.io", "p3"⟩ =
      (.serverError, [⟨1, "erin", "e@z.io", "h3"⟩]) ∧
    statusOf Response.serverError = 500 ∧
    duplicateCheckFields ≠ dbUniqueFields := by
  decide

/-- C4 (amended): when the insert would violate a uniqueness constraint
the pre-check does not cover (a duplicate username), the commit fails
and persists nothing, but the failure surfaces as an unhandled server
error (HTTP 500), not a conflict; the database constraints protect
username and email while the pre-check inspects only email, so the two
guards do not agree on the protected fields. -/
theorem C4_commit_violation (hash : String → String) (db : List UserRow)
    (u : UserCreate) (hpre : duplicatePrecheck db u = false)
    (hdup : db.any (fun q => q.username == u.username) = true) :
    register_user_pipeline hash db u = (.serverError, db) ∧
    statusOf (register_user_pipeline hash db u).1 = 500 ∧
    duplicateCheckFields ≠ dbUniqueFields := by
  have hviol : violatesUnique db
      ⟨nextId db, u.username, u.email, hash u.password⟩ = true := by
    rw [violatesUnique]
    rw [List.any_eq_true] at hdup ⊢
    obtain ⟨q, hq, hqq⟩ := hdup
    exact ⟨q, hq, by simp_all⟩
  rw [register_eq_split, if_neg (by simp [hpre]), if_pos hviol]
  exact ⟨rfl, rfl, by decide⟩

/-- C4 witness: the amended behaviour at a concrete username clash. -/
theorem C4_commit_violation_witness :
    duplicatePrecheck [⟨1, "erin", "e@z.io", "h3"⟩] ⟨"erin", "f@z.io", "p3"⟩ = false ∧
    ([⟨1, "erin", "e@z.io", "h3"⟩] : List UserRow).any
      (fun q => q.username == "erin") = true ∧
    (register_user_pipeline (fun s => s) [⟨1, "erin", "e@z.io", "h3"⟩]
        ⟨"erin", "f@z.io", "p3"⟩ =
      (.serverError, [⟨1, "erin", "e@z.io", "h3"⟩]) ∧
    statusOf (register_user_pipeline (fun s => s) [⟨1, "erin", "e@z.io", "h3"⟩]
      ⟨"erin", "f@z.io", "p3"⟩).1 = 500 ∧
    duplicateCheckFields ≠ dbUniqueFields) :=
  ⟨by decide, by decide,
    C4_commit_violation (fun s => s) _ _ (by decide) (by decide)⟩

/-- C5: every submission that does not end in a created record (a
pre-check rejection, a uniqueness violation at commit, or a validation
rejection) leaves the whole shared state unchanged: no new row in the
users table and no new file in the filesystem. -/
theorem C5_no_partial_state (hash : String → String) (s : AppState)
    (r : RawInput) (h : (handleRequest hash s r).1.isCreated = false) :
    (handleRequest hash s r).2 = s := by
  cases hp : parseUserCreate r with
  | none => rw [handleRequest_parse_none hp]
  | some u =>
      rw [handleRequest_parse_some hp] at h ⊢
      have h2 : (register_user_pipeline hash s.db u).1.isCreated = false := h
      rw [register_not_created_db hash s.db u h2]

/-- C5 witness: a concrete duplicate submission is rejected and leaves
the state untouched. -/
theorem C5_no_partial_state_witness :
    (handleRequest (fun s => s) ⟨[⟨1, "alice", "a@x.com", "pw"⟩], []⟩
      ⟨some "bob", some "a@x.com", some "q"⟩).1.isCreated = false ∧
    (handleRequest (fun s => s) ⟨[⟨1, "alice", "a@x.com", "pw"⟩], []⟩
      ⟨some "bob", some "a@x.com", some "q"⟩).2 =
      ⟨[⟨1, "alice", "a@x.com", "pw"⟩], []⟩ :=
  ⟨by decide, C5_no_partial_state (fun s => s) _ _ (by decide)⟩

/-- C6 counterexample: the success body is not all input fields plus id
and screenshot_filename: the response contract has no
screenshot_filename field and does not echo the submitted password, as
a concrete successful submission shows. -/
theorem C6_counterexample :
    userResponseFields.contains "screenshot_filename" = false ∧
    userResponseFields.contains "password" = false ∧
    (register_user_pipeline (fun s => s) [] ⟨"gail", "g@w.net", "p6"⟩).1 =
      .created ⟨1, "gail", "g@w.net"⟩ := by
  decide

/-- C6 (amended): every successful submission is answered with HTTP 201
and the committed record as exposed by the response contract: the
system-assigned integer id, computed by the persistence layer at commit
and never supplied by the caller (the request contract has no id
field), together with the submitted username and email; the password is
not echoed and no screenshot_filename exists in this variant. -/
theorem C6_success_response (hash : String → String) (db : List UserRow)
    (u : UserCreate)
    (hv : violatesUnique db ⟨nextId db, u.username, u.email, hash u.password⟩ = false) :
    register_user_pipeline hash db u =
      (.created ⟨nextId db, u.username, u.email⟩,
        db ++ [⟨nextId db, u.username, u.email, hash u.password⟩]) ∧
    statusOf (register_user_pipeline hash db u).1 = 201 ∧
    userCreateFields.contains "id" = false := by
  have hall := violatesUnique_eq_false_iff.mp hv
  have hpre : duplicatePrecheck db u = false :=
    duplicatePrecheck_eq_false_iff.mpr (fun w hw => by
      simpa using (hall w hw).2)
  have hmain : register_user_pipeline hash db u =
      (.created ⟨nextId db, u.username, u.email⟩,
        db ++ [⟨nextId db, u.username, u.email, hash u.password⟩]) := by
    rw [register_eq_split, if_neg (by simp [hpre]), if_neg (by simp [hv])]
  exact ⟨hmain, by rw [hmain]; rfl, by decide⟩

/-- C6 witness: the amended success behaviour at a concrete fresh
submission. -/
theorem C6_success_response_witness :
    violatesUnique [] ⟨nextId [], "gail", "g@w.net", (fun s => s) "p6"⟩ = false ∧
    (register_user_pipeline (fun s => s) [] ⟨"gail", "g@w.net", "p6"⟩ =
      (.created ⟨nextId [], "gail", "g@w.net"⟩,
        [] ++ [⟨nextId [], "gail", "g@w.net", (fun s => s) "p6"⟩]) ∧
    statusOf (register_user_pipeline (fun s => s) [] ⟨"gail", "g@w.net", "p6"⟩).1 = 201 ∧
    userCreateFields.contains "id" = false) :=
  ⟨by decide, C6_success_response (fun s => s) [] ⟨"gail", "g@w.net", "p6"⟩ (by decide)⟩

/-- C7: a submission with a missing required field or an email that is
not a well-formed address fails contract validation before the handler
body runs: the response is the validation rejection with the
bad-request status of the spec, and no side effect occurs on the table
or the filesystem, the whole state being returned unchanged. -/
theorem C7_validation_before_side_effects (hash : String → String)
    (s : AppState) (r : RawInput) (h : parseUserCreate r = none) :
    handleRequest hash s r = (.validationError, s) ∧
    statusOf (handleRequest hash s r).1 = 400 := by
  refine ⟨handleRequest_parse_none h, ?_⟩
  rw [handleRequest_parse_none h]
  rfl

/-- C7 witness: a malformed email is rejected with no side effect. -/
theorem C7_validation_before_side_effects_witness :
    parseUserCreate ⟨some "hank", some "not-an-email", some "p7"⟩ = none ∧
    (handleRequest (fun s => s) ⟨[], []⟩
        ⟨some "hank", some "not-an-email", some "p7"⟩ =
      (.validationError, ⟨[], []⟩) ∧
    statusOf (handleRequest (fun s => s) ⟨[], []⟩
      ⟨some "hank", some "not-an-email", some "p7"⟩).1 = 400) :=
  ⟨by decide,
    C7_validation_before_side_effects (fun s => s) ⟨[], []⟩ _ (by decide)⟩

/-- C8: for the spec-modelled filename derivation of the upload variant
(whose source is absent from src), the stored name is a fresh token
concatenated with the original extension: its extension equals the
extension of the uploaded name whenever the token contains no dot, and
two distinct fresh tokens give distinct stored names even for identical
original filenames. -/
theorem C8_filename_derivation (token t1 t2 n m : String)
    (htok : ∀ c ∈ token.data, c ≠ '.') (hne : t1 ≠ t2) :
    fileExtension (storedFilename token n) = fileExtension n ∧
    storedFilename t1 m ≠ storedFilename t2 m :=
  ⟨fileExtension_storedFilename token n htok,
    storedFilename_ne_of_token_ne m hne⟩

/-- C8 witness: the derivation at concrete tokens and a concrete
uploaded name. -/
theorem C8_filename_derivation_witness :
    (∀ c ∈ ("4f2a1c" : String).data, c ≠ '.') ∧
    (("aaaa" : String) ≠ "bbbb") ∧
    (fileExtension (storedFilename "4f2a1c" "receipt.png") =
        fileExtension "receipt.png" ∧
      storedFilename "aaaa" "receipt.png" ≠ storedFilename "bbbb" "receipt.png") :=
  ⟨by decide, by decide,
    C8_filename_derivation "4f2a1c" "aaaa" "bbbb" "receipt.png" "receipt.png"
      (by decide) (by decide)⟩

/-- C9: the schema makes username globally unique although the handler
never checks it: in every reachable state no two rows share a username,
the users table declares the username column unique, and the duplicate
pre-check is a function of the submitted email alone, giving the same
decision for any two submissions with equal emails. -/
theorem C9_username_uniqueness {s : AppState} (h : ReachableState s) :
    s.db.Pairwise (fun a b => a.username ≠ b.username) ∧
    usersTableColumns.contains ⟨"username", true⟩ = true ∧
    ∀ (db : List UserRow) (u1 u2 : UserCreate), u1.email = u2.email →
      duplicatePrecheck db u1 = duplicatePrecheck db u2 := by
  refine ⟨?_, by decide, ?_⟩
  · exact (reachable_uniqueInv h).imp (fun hab => hab.1)
  · intro db u1 u2 he
    simp [duplicatePrecheck, he]

/-- C9 witness: the property at a concretely reached state. -/
theorem C9_username_uniqueness_witness :
    ([⟨1, "ivy", "i@q.org", "pp"⟩] : List UserRow).Pairwise
        (fun a b => a.username ≠ b.username) ∧
    usersTableColumns.contains ⟨"username", true⟩ = true ∧
    ∀ (db : List UserRow) (u1 u2 : UserCreate), u1.email = u2.email →
      duplicatePrecheck db u1 = duplicatePrecheck db u2 := by
  have h1 := ReachableState.step (fun s => s)
    ⟨some "ivy", some "i@q.org", some "pp"⟩ ReachableState.init
  have h2 : (handleRequest (fun s => s) ⟨[], []⟩
      ⟨some "ivy", some "i@q.org", some "pp"⟩).2 =
      ⟨[⟨1, "ivy", "i@q.org", "pp"⟩], []⟩ := by decide
  rw [h2] at h1
  exact C9_username_uniqueness h1

/-- C10: the success contract exposes only id, username and email, and
the response is independent of the submitted password and of the
hashing function: two submissions agreeing on username and email but
differing in password receive exactly the same response. -/
theorem C10_password_noninterference (hash1 hash2 : String → String)
    (db : List UserRow) (u1 u2 : UserCreate)
    (hu : u1.username = u2.username) (he : u1.email = u2.email) :
    (register_user_pipeline hash1 db u1).1 =
      (register_user_pipeline hash2 db u2).1 ∧
    userResponseFields = ["id", "username", "email"] := by
  refine ⟨?_, by decide⟩
  rw [register_eq_split, register_eq_split]
  have h1 : duplicatePrecheck db u1 = duplicatePrecheck db u2 := by
    simp [duplicatePrecheck, he]
  have h2 : violatesUnique db ⟨nextId db, u1.username, u1.email, hash1 u1.password⟩ =
      violatesUnique db ⟨nextId db, u2.username, u2.email, hash2 u2.password⟩ :=
    violatesUnique_congr hu he
  rw [h1, h2, hu, he]
  by_cases hd : duplicatePrecheck db u2 = true
  · simp [hd]
  · rw [Bool.not_eq_true] at hd
    by_cases hv : violatesUnique db
        ⟨nextId db, u2.username, u2.email, hash2 u2.password⟩ = true
    · simp [hd, hv]
    · rw [Bool.not_eq_true] at hv
      simp [hd, hv]

/-- C10 witness: two concrete submissions differing only in password
(and hashed with different functions) get identical responses. -/
theorem C10_password_noninterference_witness :
    (UserCreate.username ⟨"kim", "k@r.co", "pw1"⟩ =
        UserCreate.username ⟨"kim", "k@r.co", "pw2"⟩) ∧
    (UserCreate.email ⟨"kim", "k@r.co", "pw1"⟩ =
        UserCreate.email ⟨"kim", "k@r.co", "pw2"⟩) ∧
    ((register_user_pipeline (fun s => s) [] ⟨"kim", "k@r.co", "pw1"⟩).1 =
      (register_user_pipeline (fun p => String.append p "x") []
        ⟨"kim", "k@r.co", "pw2"⟩).1 ∧
    userResponseFields = ["id", "username", "email"]) :=
  ⟨rfl, rfl,
    C10_password_noninterference (fun s => s) (fun p => String.append p "x")
      [] ⟨"kim", "k@r.co", "pw1"⟩ ⟨"kim", "k@r.co", "pw2"⟩ rfl rfl⟩
